import Mathlib

/-
Verification of the Rhapsode offline sync manager (offline storage plus
sync-queue reconciliation against a remote store).

The JavaScript module is shallowly embedded as follows:
- `localStorage` is a `Storage` record with one field per key the module
  uses; a stored value is either well-formed JSON (`Stored.wf v`) or
  malformed text on which `JSON.parse` throws (`Stored.malformed`).
- The ambient collaborators (`navigator.onLine`, `getCurrentUser`,
  `saveUserPoem`, `removeUserPoem`, `saveProgress`, `saveUserQuote`,
  `deleteUserQuote`) are an `Env` record: existence flags for the
  `typeof f === 'function'` checks, the resolved user, and a success
  oracle `remoteOk` for remote calls.
- A thrown exception is modelled as `Except.error ()`; functions also
  return the list of remote calls they attempted.
-/

namespace Rhapsode

/-- Practice-progress fields, as passed to saveProgressOffline and as
extracted from a poem by saveUserPoemOffline. -/
structure Progress where
  stage : Nat
  stageRepetition : Nat
  lastPracticed : Option String
  successfulReviews : Nat
  hintsUsed : Nat
deriving DecidableEq, Repr

/-- A poem record; only the fields the sync module reads are modelled. -/
structure Poem where
  id : String
  stage : Nat
  stageRepetition : Nat
  lastPracticed : Option String
  successfulReviews : Nat
  hintsUsed : Nat
deriving DecidableEq, Repr

/-- A quote record (opaque to the sync module apart from being a payload). -/
structure Quote where
  quoteText : String
deriving DecidableEq, Repr

/-- The authenticated user returned by getCurrentUser; the module only
reads user.id. -/
structure User where
  id : String
deriving DecidableEq, Repr

/-- What saveProgressLocally persists for one poem: the given progress
fields spread together with an updatedAt stamp. -/
structure ProgressSnapshot where
  progress : Progress
  updatedAt : String
deriving DecidableEq, Repr

/-- Payload of a queue item (the data field). The shapes mirror what the
module enqueues: a whole poem for save_poem, a poemId-plus-progress record
for save_progress, a poemId record for remove_poem, a quote for save_quote
and a quoteId record for delete_quote. -/
inductive SyncData where
  | poemPayload (poem : Poem)
  | progressPayload (poemId : String) (progress : Progress)
  | poemIdPayload (poemId : String)
  | quotePayload (q : Quote)
  | quoteIdPayload (quoteId : String)
deriving DecidableEq, Repr

/-- A progress value as passed to the remote saveProgress: the bare
progress record on the immediate path, or a stored snapshot (with its
updatedAt field) on the mirror full-sync path. -/
inductive ProgressArg where
  | bare (p : Progress)
  | snap (ps : ProgressSnapshot)
deriving DecidableEq, Repr

/-- JS property read data.poemId: some when the payload shape has that
property, none models undefined. -/
def SyncData.getPoemId : SyncData → Option String
  | .progressPayload pid _ => some pid
  | .poemIdPayload pid => some pid
  | _ => none

/-- JS property read data.progress. -/
def SyncData.getProgress : SyncData → Option ProgressArg
  | .progressPayload _ p => some (.bare p)
  | _ => none

/-- JS property read data.quoteId. -/
def SyncData.getQuoteId : SyncData → Option String
  | .quoteIdPayload qid => some qid
  | _ => none

/-- One record of the persisted sync queue, as built by addToSyncQueue. -/
structure QueueItem where
  id : String
  action : String
  data : SyncData
  timestamp : String
  retries : Nat
deriving DecidableEq, Repr

/-- A call into the remote store, with the arguments the module passes. -/
inductive RemoteCall where
  | savePoem (userId : String) (data : SyncData)
  | removePoem (userId : String) (poemId : Option String)
  | saveProgress (poemId : Option String) (progress : Option ProgressArg)
  | saveQuote (userId : String) (data : SyncData)
  | deleteQuote (userId : String) (quoteId : Option String)
deriving DecidableEq, Repr

/-- A persisted localStorage value: either well-formed JSON decoding to v,
or malformed text on which JSON.parse throws. -/
inductive Stored (α : Type) where
  | wf (v : α)
  | malformed
deriving DecidableEq, Repr

/-- The progress mirror as a JS object: an ordered association list with
unique keys (insertion order, updates in place). -/
abbrev ProgressMap := List (String × ProgressSnapshot)

/-- The localStorage keys the module uses. rhapsode_last_sync is written
and read as a raw string (never JSON-parsed), so it is a plain optional
string. rhapsode_offline_poems is declared in the source but never used. -/
structure Storage where
  syncQueue : Option (Stored (List QueueItem))
  progress : Option (Stored ProgressMap)
  lastSync : Option String
deriving DecidableEq, Repr

/-- External collaborators and ambient state: the online flag, whether
getCurrentUser exists and what it resolves to, whether each remote
function exists, and whether a given remote call succeeds. -/
structure Env where
  isOnline : Bool
  hasGetCurrentUser : Bool
  currentUser : Option User
  hasSavePoem : Bool
  hasRemovePoem : Bool
  hasSaveProgress : Bool
  hasSaveQuote : Bool
  hasDeleteQuote : Bool
  remoteOk : RemoteCall → Bool

/-- JS object key assignment allProgress[poemId] = v: replace the value at
an existing key in place, otherwise append the new key at the end. -/
def objSet (k : String) (v : ProgressSnapshot) : ProgressMap → ProgressMap
  | [] => [(k, v)]
  | (k', v') :: rest => if k' = k then (k, v) :: rest else (k', v') :: objSet k v rest

/-- JS object key read allProgress[poemId], none models undefined. -/
def objGet (k : String) : ProgressMap → Option ProgressSnapshot
  | [] => none
  | (k', v') :: rest => if k' = k then some v' else objGet k rest

/-- getSyncQueue: JSON.parse of the stored queue, with absent content
defaulting to the empty array and parse failures caught and degraded to
the empty array. -/
def getSyncQueue (s : Storage) : List QueueItem :=
  match s.syncQueue with
  | none => []
  | some (.wf q) => q
  | some .malformed => []

/-- saveSyncQueue: persist the whole queue under the queue key. -/
def saveSyncQueue (s : Storage) (queue : List QueueItem) : Storage :=
  { s with syncQueue := some (.wf queue) }

/-- addToSyncQueue: append a fresh item with retries 0 and persist the
whole queue. newId stands for the generated Date.now-plus-random id and
now for the ISO timestamp of the call. -/
def addToSyncQueue (s : Storage) (action : String) (data : SyncData)
    (newId now : String) : Storage :=
  saveSyncQueue s (getSyncQueue s ++ [⟨newId, action, data, now, 0⟩])

/-- removeFromSyncQueue: keep every item whose id differs and persist. -/
def removeFromSyncQueue (s : Storage) (itemId : String) : Storage :=
  saveSyncQueue s ((getSyncQueue s).filter (fun it => it.id != itemId))

/-- JSON.parse of the stored progress mirror (absent defaults to the empty
object). Unlike getSyncQueue there is no try/catch around this parse, so a
malformed stored value throws. -/
def readProgressStore (s : Storage) : Except Unit ProgressMap :=
  match s.progress with
  | none => .ok []
  | some (.wf m) => .ok m
  | some .malformed => .error ()

/-- saveProgressLocally: read the whole mirror, set the poem's snapshot
with an updatedAt stamp, persist the whole mirror. -/
def saveProgressLocally (s : Storage) (poemId : String) (p : Progress)
    (now : String) : Except Unit Storage :=
  match readProgressStore s with
  | .error e => .error e
  | .ok m => .ok { s with progress := some (.wf (objSet poemId ⟨p, now⟩ m)) }

/-- getLocalProgress: the snapshot for one poem, or none (JS null). -/
def getLocalProgress (s : Storage) (poemId : String) :
    Except Unit (Option ProgressSnapshot) :=
  (readProgressStore s).map (objGet poemId)

/-- getAllLocalProgress: the whole mirror object. -/
def getAllLocalProgress (s : Storage) : Except Unit ProgressMap :=
  readProgressStore s

/-- processSyncItem: dispatch on the item's action string; each case calls
its remote function only when it exists (a missing function means the case
body is skipped and the item counts as processed). The default case only
logs a warning and returns normally. Returns whether the item completed
without throwing, together with the remote calls attempted. -/
def processSyncItem (env : Env) (user : User) (item : QueueItem) :
    Bool × List RemoteCall :=
  if item.action = "save_poem" then
    if env.hasSavePoem then
      let c := RemoteCall.savePoem user.id item.data
      (env.remoteOk c, [c])
    else (true, [])
  else if item.action = "remove_poem" then
    if env.hasRemovePoem then
      let c := RemoteCall.removePoem user.id item.data.getPoemId
      (env.remoteOk c, [c])
    else (true, [])
  else if item.action = "save_progress" then
    if env.hasSaveProgress then
      let c := RemoteCall.saveProgress item.data.getPoemId item.data.getProgress
      (env.remoteOk c, [c])
    else (true, [])
  else if item.action = "save_quote" then
    if env.hasSaveQuote then
      let c := RemoteCall.saveQuote user.id item.data
      (env.remoteOk c, [c])
    else (true, [])
  else if item.action = "delete_quote" then
    if env.hasDeleteQuote then
      let c := RemoteCall.deleteQuote user.id item.data.getQuoteId
      (env.remoteOk c, [c])
    else (true, [])
  else
    (true, [])

/-- The for-loop body of syncPendingChanges over the queue snapshot: on
success the item is dequeued from the persisted queue; on failure the
retry counter of the in-memory snapshot item is incremented (that
increment is never written back to storage) and the item is dequeued only
when the incremented counter reaches 3. -/
def syncQueueItems (env : Env) (user : User) :
    List QueueItem → Storage → Storage × List RemoteCall
  | [], s => (s, [])
  | item :: rest, s =>
    let pr := processSyncItem env user item
    let s' :=
      if pr.1 then removeFromSyncQueue s item.id
      else if item.retries + 1 ≥ 3 then removeFromSyncQueue s item.id
      else s
    let r := syncQueueItems env user rest s'
    (r.1, pr.2 ++ r.2)

/-- syncLocalProgressToCloud: read the whole mirror (this parse can throw),
return early when it is empty, otherwise push each snapshot through the
remote saveProgress when that function exists; per-item remote failures
are caught and only logged, so every snapshot is attempted. -/
def syncLocalProgressToCloud (env : Env) (s : Storage) :
    Except Unit (List RemoteCall) :=
  (getAllLocalProgress s).map (fun m =>
    if m.isEmpty then []
    else if env.hasSaveProgress then
      m.map (fun e => RemoteCall.saveProgress (some e.1) (some (.snap e.2)))
    else [])

/-- The user getCurrentUser resolves: null when the collaborator is
missing, otherwise its result. -/
def resolveUser (env : Env) : Option User :=
  if env.hasGetCurrentUser then env.currentUser else none

/-- syncPendingChanges: return unchanged when offline, when no user
resolves, or when the queue snapshot is empty; otherwise process the
snapshot sequentially, push the mirror, and stamp the last-sync key.
Returns the final storage and the remote calls made. -/
def syncPendingChanges (env : Env) (s : Storage) (now : String) :
    Except Unit (Storage × List RemoteCall) :=
  if !env.isOnline then .ok (s, [])
  else
    match resolveUser env with
    | none => .ok (s, [])
    | some user =>
      let queue := getSyncQueue s
      if queue.isEmpty then .ok (s, [])
      else
        let r := syncQueueItems env user queue s
        match syncLocalProgressToCloud env r.1 with
        | .error e => .error e
        | .ok cs2 => .ok ({ r.1 with lastSync := some now }, r.2 ++ cs2)

/-- The progress fields saveUserPoemOffline extracts from a poem for the
local mirror write. -/
def poemProgress (poem : Poem) : Progress :=
  ⟨poem.stage, poem.stageRepetition, poem.lastPracticed,
   poem.successfulReviews, poem.hintsUsed⟩

/-- saveUserPoemOffline: always save the poem's progress fields locally
first; when online with getCurrentUser present, a resolving user and
saveUserPoem present, attempt the immediate remote write and return on
success; otherwise enqueue a save_poem item. -/
def saveUserPoemOffline (env : Env) (s : Storage) (poem : Poem)
    (newId now : String) : Except Unit (Storage × List RemoteCall) :=
  match saveProgressLocally s poem.id (poemProgress poem) now with
  | .error e => .error e
  | .ok s1 =>
    if env.isOnline && env.hasGetCurrentUser then
      match env.currentUser with
      | some user =>
        if env.hasSavePoem then
          let c := RemoteCall.savePoem user.id (.poemPayload poem)
          if env.remoteOk c then .ok (s1, [c])
          else .ok (addToSyncQueue s1 "save_poem" (.poemPayload poem) newId now, [c])
        else .ok (addToSyncQueue s1 "save_poem" (.poemPayload poem) newId now, [])
      | none => .ok (addToSyncQueue s1 "save_poem" (.poemPayload poem) newId now, [])
    else .ok (addToSyncQueue s1 "save_poem" (.poemPayload poem) newId now, [])

/-- saveProgressOffline: always save locally first; when online with
getCurrentUser present, a resolving user and saveProgress present, attempt
the immediate remote write and return on success; otherwise enqueue a
save_progress item. -/
def saveProgressOffline (env : Env) (s : Storage) (poemId : String)
    (p : Progress) (newId now : String) :
    Except Unit (Storage × List RemoteCall) :=
  match saveProgressLocally s poemId p now with
  | .error e => .error e
  | .ok s1 =>
    if env.isOnline && env.hasGetCurrentUser then
      match env.currentUser with
      | some _ =>
        if env.hasSaveProgress then
          let c := RemoteCall.saveProgress (some poemId) (some (.bare p))
          if env.remoteOk c then .ok (s1, [c])
          else .ok (addToSyncQueue s1 "save_progress" (.progressPayload poemId p) newId now, [c])
        else .ok (addToSyncQueue s1 "save_progress" (.progressPayload poemId p) newId now, [])
      | none => .ok (addToSyncQueue s1 "save_progress" (.progressPayload poemId p) newId now, [])
    else .ok (addToSyncQueue s1 "save_progress" (.progressPayload poemId p) newId now, [])

/-- isAppOnline: the tracked online flag. -/
def isAppOnline (env : Env) : Bool := env.isOnline

/-- getLastSyncTime: the raw stored last-sync string, or null. -/
def getLastSyncTime (s : Storage) : Option String := s.lastSync

/-- forceSyncNow: false immediately when offline (after a best-effort
toast); otherwise await syncPendingChanges and return true. -/
def forceSyncNow (env : Env) (s : Storage) (now : String) :
    Except Unit ((Storage × List RemoteCall) × Bool) :=
  if !env.isOnline then .ok ((s, []), false)
  else (syncPendingChanges env s now).map (fun r => (r, true))

/-- getPendingSyncCount: the length of the persisted queue. -/
def getPendingSyncCount (s : Storage) : Nat := (getSyncQueue s).length

/-- The parsed progress mirror, reading absent content as the empty object;
used to state mirror properties (the writes below keep it well-formed). -/
def mirrorOf (s : Storage) : ProgressMap :=
  match s.progress with
  | some (.wf m) => m
  | _ => []

/-- The five action strings that have a case label in processSyncItem. -/
def recognizedAction (a : String) : Bool :=
  a = "save_poem" || a = "remove_poem" || a = "save_progress" ||
    a = "save_quote" || a = "delete_quote"

/-- Whether the remote function a given action dispatches to exists in the
environment (the typeof f check of its case). -/
def handlerPresent (env : Env) (a : String) : Bool :=
  if a = "save_poem" then env.hasSavePoem
  else if a = "remove_poem" then env.hasRemovePoem
  else if a = "save_progress" then env.hasSaveProgress
  else if a = "save_quote" then env.hasSaveQuote
  else if a = "delete_quote" then env.hasDeleteQuote
  else true

/-- The condition under which saveProgressOffline completes its immediate
remote write: online, getCurrentUser present and resolving, saveProgress
present, and the remote call succeeding. -/
def progressRemoteSucceeds (env : Env) (poemId : String) (p : Progress) : Bool :=
  env.isOnline && env.hasGetCurrentUser && env.currentUser.isSome &&
    env.hasSaveProgress &&
    env.remoteOk (.saveProgress (some poemId) (some (.bare p)))

/-- The condition under which saveUserPoemOffline completes its immediate
remote write. -/
def poemRemoteSucceeds (env : Env) (poem : Poem) : Bool :=
  env.isOnline && env.hasGetCurrentUser &&
    (match env.currentUser with
     | some user => env.hasSavePoem && env.remoteOk (.savePoem user.id (.poemPayload poem))
     | none => false)

/-- One call to saveProgressOffline in a sequence: its arguments together
with the id and timestamp generated during that call. -/
structure WriteCall where
  poemId : String
  progress : Progress
  newId : String
  now : String
deriving DecidableEq, Repr

/-- The queue record saveProgressOffline enqueues for one call. -/
def queueEntryOf (c : WriteCall) : QueueItem :=
  ⟨c.newId, "save_progress", .progressPayload c.poemId c.progress, c.now, 0⟩

/-- The last call of the sequence that targets the given poemId. -/
def lastWriteFor (pid : String) : List WriteCall → Option WriteCall
  | [] => none
  | c :: rest =>
    match lastWriteFor pid rest with
    | some c' => some c'
    | none => if c.poemId = pid then some c else none

/-- Run a sequence of saveProgressOffline calls, threading the storage. -/
def runWrites (env : Env) : Storage → List WriteCall → Except Unit Storage
  | s, [] => .ok s
  | s, c :: rest =>
    match saveProgressOffline env s c.poemId c.progress c.newId c.now with
    | .error e => .error e
    | .ok r => runWrites env r.1 rest

/-- An environment that is online and authenticated with every remote
function present, whose every remote call fails. -/
def envAllFail : Env :=
  { isOnline := true, hasGetCurrentUser := true, currentUser := some ⟨"user-1"⟩,
    hasSavePoem := true, hasRemovePoem := true, hasSaveProgress := true,
    hasSaveQuote := true, hasDeleteQuote := true, remoteOk := fun _ => false }

/-- The same environment with every remote call succeeding. -/
def envAllOk : Env :=
  { envAllFail with remoteOk := fun _ => true }

/-- The same environment but offline. -/
def envOffline : Env :=
  { envAllFail with isOnline := false }

/-- An online environment whose getCurrentUser resolves no user. -/
def envNoUser : Env :=
  { envAllOk with currentUser := none }

/-- A sample progress record. -/
def sampleProgress : Progress := ⟨2, 1, none, 3, 0⟩

/-- A queued save_progress item with retries 0, as addToSyncQueue creates. -/
def stuckItem : QueueItem :=
  ⟨"q1", "save_progress", .progressPayload "poem-1" sampleProgress, "t0", 0⟩

/-- Storage holding exactly that one queued item and an empty mirror. -/
def stuckStart : Storage := ⟨some (.wf [stuckItem]), some (.wf []), none⟩

/-- The same storage after a reconciliation pass has stamped the sync key. -/
def stuckAfter : Storage := ⟨some (.wf [stuckItem]), some (.wf []), some "t1"⟩

/-- The remote call a pass makes for that item. -/
def stuckCall : RemoteCall :=
  .saveProgress (some "poem-1") (some (.bare sampleProgress))

/-- Iterate reconciliation passes (always-failing remote) from stuckStart. -/
def runPasses : Nat → Storage
  | 0 => stuckStart
  | n + 1 =>
    match syncPendingChanges envAllFail (runPasses n) "t1" with
    | .ok r => r.1
    | .error _ => runPasses n

/-- A queue item whose action is not one of the five recognized values. -/
def bogusItem : QueueItem := ⟨"q2", "bogus_action", .poemIdPayload "poem-1", "t0", 0⟩

/-- Storage holding exactly that unrecognized item and an empty mirror. -/
def bogusStart : Storage := ⟨some (.wf [bogusItem]), some (.wf []), none⟩

/-- A stored snapshot for the empty-queue counterexample. -/
def snap1 : ProgressSnapshot := ⟨sampleProgress, "t0"⟩

/-- Storage with an empty queue, a nonempty mirror and no last-sync stamp. -/
def emptyQStart : Storage := ⟨none, some (.wf [("poem-1", snap1)]), none⟩

/-- Storage whose two JSON keys both hold malformed content. -/
def sMal : Storage := ⟨some .malformed, some .malformed, none⟩

/-- Entirely empty storage. -/
def sEmpty : Storage := ⟨none, none, none⟩

/-- A sample poem. -/
def samplePoem : Poem := ⟨"poem-2", 1, 0, none, 0, 0⟩

/-- A second sample progress record for the same poem. -/
def sampleProgress2 : Progress := ⟨3, 0, some "t1", 4, 1⟩

/-- An online authenticated environment missing the saveUserPoem function. -/
def envNoPoemHandler : Env := { envAllOk with hasSavePoem := false }

/-- A queued save_poem item. -/
def poemItem : QueueItem := ⟨"q3", "save_poem", .poemPayload samplePoem, "t0", 0⟩

/-- Two offline writes to the same poem. -/
def sampleWrites : List WriteCall :=
  [⟨"poem-1", sampleProgress, "id1", "t1"⟩, ⟨"poem-1", sampleProgress2, "id2", "t2"⟩]



lemma objGet_objSet (q k : String) (v : ProgressSnapshot) (m : ProgressMap) :
    objGet q (objSet k v m) = if k = q then some v else objGet q m := by
  induction m with
  | nil => simp [objSet, objGet]
  | cons hd tl ih =>
    obtain ⟨k', v'⟩ := hd
    by_cases h1 : k' = k
    · subst h1
      by_cases h2 : k' = q <;> simp [objSet, objGet, h2]
    · by_cases h2 : k' = q
      · have hkq : ¬k = q := fun hh => h1 (h2.trans hh.symm)
        have hqk : ¬q = k := fun hh => hkq hh.symm
        subst h2
        simp [objSet, objGet, hqk, hkq]
      · simp [objSet, objGet, h1, h2, ih]

lemma saveProgressLocally_ok (s : Storage) (pid : String) (p : Progress) (now : String)
    (hm : s.progress ≠ some .malformed) :
    saveProgressLocally s pid p now =
      .ok { s with progress := some (.wf (objSet pid ⟨p, now⟩ (mirrorOf s))) } := by
  rcases hp : s.progress with _ | (m | _)
  · simp [saveProgressLocally, readProgressStore, mirrorOf, hp]
  · simp [saveProgressLocally, readProgressStore, mirrorOf, hp]
  · exact absurd hp hm

lemma getSyncQueue_addToSyncQueue (s : Storage) (a : String) (d : SyncData) (i t : String) :
    getSyncQueue (addToSyncQueue s a d i t) = getSyncQueue s ++ [⟨i, a, d, t, 0⟩] := rfl

lemma mirrorOf_addToSyncQueue (s : Storage) (a : String) (d : SyncData) (i t : String) :
    mirrorOf (addToSyncQueue s a d i t) = mirrorOf s := rfl

lemma saveProgressOffline_spec (env : Env) (s : Storage) (poemId : String)
    (p : Progress) (newId now : String) (hm : s.progress ≠ some .malformed) :
    ∃ s1 cs1, saveProgressOffline env s poemId p newId now = .ok (s1, cs1) ∧
      objGet poemId (mirrorOf s1) = some ⟨p, now⟩ ∧ s1.lastSync = s.lastSync ∧
      (if progressRemoteSucceeds env poemId p then getSyncQueue s1 = getSyncQueue s
       else getSyncQueue s1 =
         getSyncQueue s ++ [⟨newId, "save_progress", .progressPayload poemId p, now, 0⟩]) := by
  have hloc := saveProgressLocally_ok s poemId p now hm
  cases h1 : env.isOnline <;> cases h2 : env.hasGetCurrentUser <;>
    rcases h3 : env.currentUser with _ | u <;> cases h4 : env.hasSaveProgress <;>
      cases h5 : env.remoteOk (RemoteCall.saveProgress (some poemId) (some (.bare p))) <;>
        simp [saveProgressOffline, hloc, progressRemoteSucceeds, h1, h2, h3, h4, h5, mirrorOf,
          objGet_objSet, getSyncQueue_addToSyncQueue, addToSyncQueue, saveSyncQueue, getSyncQueue]

lemma saveUserPoemOffline_spec (env : Env) (s : Storage) (poem : Poem)
    (newId now : String) (hm : s.progress ≠ some .malformed) :
    ∃ s2 cs2, saveUserPoemOffline env s poem newId now = .ok (s2, cs2) ∧
      objGet poem.id (mirrorOf s2) = some ⟨poemProgress poem, now⟩ ∧ s2.lastSync = s.lastSync ∧
      (if poemRemoteSucceeds env poem then getSyncQueue s2 = getSyncQueue s
       else getSyncQueue s2 =
         getSyncQueue s ++ [⟨newId, "save_poem", .poemPayload poem, now, 0⟩]) := by
  have hloc := saveProgressLocally_ok s poem.id (poemProgress poem) now hm
  cases h1 : env.isOnline <;> cases h2 : env.hasGetCurrentUser <;>
    rcases h3 : env.currentUser with _ | u <;> cases h4 : env.hasSavePoem <;>
      first
      | (cases h5 : env.remoteOk (RemoteCall.savePoem u.id (.poemPayload poem)) <;>
          simp [saveUserPoemOffline, hloc, poemRemoteSucceeds, h1, h2, h3, h4, h5, mirrorOf,
            objGet_objSet, getSyncQueue_addToSyncQueue, addToSyncQueue, saveSyncQueue, getSyncQueue])
      | simp [saveUserPoemOffline, hloc, poemRemoteSucceeds, h1, h2, h3, h4, mirrorOf,
          objGet_objSet, getSyncQueue_addToSyncQueue, addToSyncQueue, saveSyncQueue, getSyncQueue]

/-- Claim C1: both write facades first unconditionally upsert the progress
mirror; when the immediate remote write goes through no queue entry is
created, and in every other case exactly one corresponding item is
appended to the sync queue. -/
theorem write_facade_mirror_first_then_queue (env : Env) (s : Storage)
    (poemId : String) (p : Progress) (poem : Poem) (newId now : String)
    (hm : s.progress ≠ some .malformed) :
    (∃ s1 cs1, saveProgressOffline env s poemId p newId now = .ok (s1, cs1) ∧
      objGet poemId (mirrorOf s1) = some ⟨p, now⟩ ∧ s1.lastSync = s.lastSync ∧
      (if progressRemoteSucceeds env poemId p then getSyncQueue s1 = getSyncQueue s
       else getSyncQueue s1 =
         getSyncQueue s ++ [⟨newId, "save_progress", .progressPayload poemId p, now, 0⟩])) ∧
    (∃ s2 cs2, saveUserPoemOffline env s poem newId now = .ok (s2, cs2) ∧
      objGet poem.id (mirrorOf s2) = some ⟨poemProgress poem, now⟩ ∧ s2.lastSync = s.lastSync ∧
      (if poemRemoteSucceeds env poem then getSyncQueue s2 = getSyncQueue s
       else getSyncQueue s2 =
         getSyncQueue s ++ [⟨newId, "save_poem", .poemPayload poem, now, 0⟩])) :=
  ⟨saveProgressOffline_spec env s poemId p newId now hm,
   saveUserPoemOffline_spec env s poem newId now hm⟩

lemma mirrorOf_progressSet (s : Storage) (m : ProgressMap) :
    mirrorOf { s with progress := some (.wf m) } = m := rfl

lemma getSyncQueue_progressSet (s : Storage) (x : Option (Stored ProgressMap)) :
    getSyncQueue { s with progress := x } = getSyncQueue s := rfl

lemma saveProgressOffline_offline (env : Env) (s : Storage) (pid : String) (p : Progress)
    (i t : String) (honl : env.isOnline = false) (hm : s.progress ≠ some .malformed) :
    saveProgressOffline env s pid p i t =
      .ok (addToSyncQueue { s with progress := some (.wf (objSet pid ⟨p, t⟩ (mirrorOf s))) }
            "save_progress" (.progressPayload pid p) i t, []) := by
  simp [saveProgressOffline, saveProgressLocally_ok s pid p t hm, honl]

/-- Claim C6: any sequence of saveProgressOffline calls made while offline
leaves the mirror holding the last snapshot per poemId and appends one
save_progress queue entry per call, in call order. -/
theorem offline_writes_lastwins_one_entry_per_call (env : Env) (honl : env.isOnline = false)
    (ws : List WriteCall) (s : Storage) (hm : s.progress ≠ some .malformed) :
    ∃ s', runWrites env s ws = .ok s' ∧
      (∀ pid, objGet pid (mirrorOf s') =
        (match lastWriteFor pid ws with
         | some c => some ⟨c.progress, c.now⟩
         | none => objGet pid (mirrorOf s))) ∧
      getSyncQueue s' = getSyncQueue s ++ ws.map queueEntryOf := by
  induction ws generalizing s with
  | nil => exact ⟨s, rfl, fun pid => by simp [lastWriteFor], by simp [runWrites]⟩
  | cons c rest ih =>
    obtain ⟨s', hrun, hmir, hq⟩ :=
      ih (addToSyncQueue { s with progress := some (.wf (objSet c.poemId ⟨c.progress, c.now⟩ (mirrorOf s))) }
            "save_progress" (.progressPayload c.poemId c.progress) c.newId c.now)
        (by simp [addToSyncQueue, saveSyncQueue])
    refine ⟨s', ?_, ?_, ?_⟩
    · simpa [runWrites, saveProgressOffline_offline env s c.poemId c.progress c.newId c.now honl hm]
        using hrun
    · intro pid
      rw [hmir pid]
      cases hlast : lastWriteFor pid rest with
      | some c' => simp [lastWriteFor, hlast]
      | none =>
        by_cases hc : c.poemId = pid <;>
          simp [lastWriteFor, hlast, hc, mirrorOf_addToSyncQueue, mirrorOf_progressSet,
            objGet_objSet]
    · rw [hq, getSyncQueue_addToSyncQueue, getSyncQueue_progressSet]
      simp [queueEntryOf]

lemma stuck_pass (ls : Option String) :
    syncPendingChanges envAllFail ⟨some (.wf [stuckItem]), some (.wf []), ls⟩ "t1" =
      .ok (⟨some (.wf [stuckItem]), some (.wf []), some "t1"⟩, [stuckCall]) := rfl

lemma runPasses_succ : ∀ n : Nat, runPasses (n + 1) = stuckAfter := by
  intro n
  induction n with
  | zero => rfl
  | succ n ih =>
    show runPasses (n + 1 + 1) = stuckAfter
    unfold runPasses
    rw [ih]
    rfl

/-- Claim C2 is violated by the code: the retry increment is applied only
to the in-memory queue snapshot and never persisted, so an always-failing
item is still in the persisted queue, with retries 0, after every number
of reconciliation passes, and every further pass makes one more remote
attempt for it. -/
theorem always_failing_item_never_dropped : ∀ n : Nat,
    getSyncQueue (runPasses n) = [stuckItem] ∧
    syncPendingChanges envAllFail (runPasses n) "t1" =
      .ok ({ runPasses n with lastSync := some "t1" }, [stuckCall]) := by
  intro n
  cases n with
  | zero => exact ⟨rfl, rfl⟩
  | succ n => rw [runPasses_succ]; exact ⟨rfl, rfl⟩

/-- Claim C3 as stated is false: a queue item with an unrecognized action
is dequeued by the first reconciliation pass rather than left in place. -/
theorem unknown_action_item_is_dequeued_cex :
    recognizedAction bogusItem.action = false ∧
    getSyncQueue bogusStart = [bogusItem] ∧
    syncPendingChanges envAllFail bogusStart "t1" =
      .ok (⟨some (.wf []), some (.wf []), some "t1"⟩, []) ∧
    getSyncQueue ⟨some (.wf []), some (.wf []), some "t1"⟩ = [] :=
  ⟨rfl, rfl, rfl, rfl⟩

lemma processSyncItem_unknown (env : Env) (user : User) (item : QueueItem)
    (h : recognizedAction item.action = false) :
    processSyncItem env user item = (true, []) := by
  simp only [recognizedAction, Bool.or_eq_false_iff, decide_eq_false_iff_not] at h
  obtain ⟨⟨⟨⟨h1, h2⟩, h3⟩, h4⟩, h5⟩ := h
  simp [processSyncItem, h1, h2, h3, h4, h5]

lemma getSyncQueue_removeFromSyncQueue (s : Storage) (i : String) :
    getSyncQueue (removeFromSyncQueue s i) =
      (getSyncQueue s).filter (fun it => it.id != i) := rfl

lemma progress_removeFromSyncQueue (s : Storage) (i : String) :
    (removeFromSyncQueue s i).progress = s.progress := rfl

lemma syncQueueItems_unknown (env : Env) (user : User) :
    ∀ (l : List QueueItem) (s : Storage),
      (∀ it ∈ l, recognizedAction it.action = false) →
      getSyncQueue (syncQueueItems env user l s).1 =
        (getSyncQueue s).filter (fun it => l.all (fun j => it.id != j.id)) ∧
      (syncQueueItems env user l s).1.progress = s.progress ∧
      (syncQueueItems env user l s).2 = [] := by
  intro l
  induction l with
  | nil => intro s h; simp [syncQueueItems]
  | cons item rest ih =>
    intro s h
    have hitem := h item (List.mem_cons_self item rest)
    have hrest : ∀ it ∈ rest, recognizedAction it.action = false :=
      fun it hit => h it (List.mem_cons_of_mem item hit)
    obtain ⟨ihq, ihp, ihc⟩ := ih (removeFromSyncQueue s item.id) hrest
    refine ⟨?_, ?_, ?_⟩
    · simp only [syncQueueItems, processSyncItem_unknown env user item hitem]
      simp only [if_true]
      rw [ihq, getSyncQueue_removeFromSyncQueue, List.filter_filter]
      congr 1
      funext a
      rw [List.all_cons, Bool.and_comm]
    · simp only [syncQueueItems, processSyncItem_unknown env user item hitem]
      simp only [if_true]
      rw [ihp, progress_removeFromSyncQueue]
    · simp only [syncQueueItems, processSyncItem_unknown env user item hitem]
      simp only [if_true]
      simp [ihc]

lemma syncLocalProgressToCloud_eq (env : Env) (s : Storage) (m : ProgressMap)
    (h : readProgressStore s = .ok m) :
    syncLocalProgressToCloud env s =
      .ok (if m.isEmpty then []
           else if env.hasSaveProgress then
             m.map (fun e => RemoteCall.saveProgress (some e.1) (some (.snap e.2)))
           else []) := by
  simp [syncLocalProgressToCloud, getAllLocalProgress, h, Except.map]

lemma syncLocalProgressToCloud_ok (env : Env) (s : Storage)
    (h : s.progress ≠ some .malformed) :
    ∃ cs, syncLocalProgressToCloud env s = .ok cs := by
  rcases hp : s.progress with _ | (m | _)
  · exact ⟨_, syncLocalProgressToCloud_eq env s [] (by simp [readProgressStore, hp])⟩
  · exact ⟨_, syncLocalProgressToCloud_eq env s m (by simp [readProgressStore, hp])⟩
  · exact absurd hp h

lemma getSyncQueue_lastSyncSet (s : Storage) (v : Option String) :
    getSyncQueue { s with lastSync := v } = getSyncQueue s := rfl

lemma progress_lastSyncSet (s : Storage) (v : Option String) :
    ({ s with lastSync := v } : Storage).progress = s.progress := rfl

lemma syncPendingChanges_run (env : Env) (user : User) (s : Storage) (now : String)
    (cs2 : List RemoteCall)
    (h1 : env.isOnline = true) (h2 : resolveUser env = some user)
    (hne : getSyncQueue s ≠ [])
    (hcs2 : syncLocalProgressToCloud env (syncQueueItems env user (getSyncQueue s) s).1 = .ok cs2) :
    syncPendingChanges env s now =
      .ok ({ (syncQueueItems env user (getSyncQueue s) s).1 with lastSync := some now },
           (syncQueueItems env user (getSyncQueue s) s).2 ++ cs2) := by
  have hie : (getSyncQueue s).isEmpty = false := by
    simp [List.isEmpty_iff]; exact hne
  simp [syncPendingChanges, h1, h2, hie, hcs2]

/-- Claim C3 amended: when every item in a nonempty queue carries an
unrecognized action, a single online authenticated reconciliation pass
dequeues them all (they are treated like successfully processed items),
leaving the persisted queue empty and the mirror untouched. -/
theorem unknown_action_items_dequeued_first_pass (env : Env) (user : User)
    (s : Storage) (now : String)
    (h1 : env.isOnline = true) (h2 : resolveUser env = some user)
    (h3 : getSyncQueue s ≠ [])
    (h4 : ∀ it ∈ getSyncQueue s, recognizedAction it.action = false)
    (h5 : s.progress ≠ some .malformed) :
    ∃ s' cs, syncPendingChanges env s now = .ok (s', cs) ∧
      getSyncQueue s' = [] ∧ s'.progress = s.progress := by
  obtain ⟨hq, hp, _⟩ := syncQueueItems_unknown env user (getSyncQueue s) s h4
  obtain ⟨cs2, hcs2⟩ :=
    syncLocalProgressToCloud_ok env (syncQueueItems env user (getSyncQueue s) s).1
      (hp ▸ h5)
  refine ⟨_, _, syncPendingChanges_run env user s now cs2 h1 h2 h3 hcs2, ?_, ?_⟩
  · rw [getSyncQueue_lastSyncSet, hq]
    apply List.filter_eq_nil_iff.mpr
    intro it hit
    cases hb : (getSyncQueue s).all (fun j => it.id != j.id) with
    | false => simp
    | true =>
      have := List.all_eq_true.mp hb it hit
      rw [bne_self_eq_false] at this
      exact absurd this (by simp)
  · rw [progress_lastSyncSet, hp]

/-- Claim C4 as stated is false: with an online, authenticated environment
and an empty queue but a nonempty mirror, syncPendingChanges returns with
no remote call, the mirror not pushed and the last-sync stamp not set. -/
theorem empty_queue_skips_full_reconcile_cex :
    getSyncQueue emptyQStart = [] ∧
    mirrorOf emptyQStart = [("poem-1", snap1)] ∧
    syncPendingChanges envAllOk emptyQStart "t1" = .ok (emptyQStart, []) ∧
    (getLastSyncTime emptyQStart = none) :=
  ⟨rfl, rfl, rfl, rfl⟩

/-- Claim C4 amended: when the queue snapshot is empty, syncPendingChanges
returns immediately with the storage unchanged and no remote call, even
online with a resolving identity — the full-reconcile mirror push and the
last-sync stamp are skipped. -/
theorem empty_queue_returns_unchanged (env : Env) (user : User) (s : Storage) (now : String)
    (h1 : env.isOnline = true) (h2 : resolveUser env = some user)
    (h3 : getSyncQueue s = []) :
    syncPendingChanges env s now = .ok (s, []) := by
  simp [syncPendingChanges, h1, h2, h3]

/-- Claim C5 as stated is false: with malformed content under both JSON
keys, the sync-queue read degrades to the empty queue, but every progress
mirror read propagates the parse error to the caller. -/
theorem malformed_storage_cex :
    getSyncQueue sMal = [] ∧
    getAllLocalProgress sMal = .error () ∧
    getLocalProgress sMal "poem-1" = .error () ∧
    saveProgressLocally sMal "poem-1" sampleProgress "t1" = .error () :=
  ⟨rfl, rfl, rfl, rfl⟩

/-- Claim C5 amended: malformed stored content is degraded to the empty
default only by the sync-queue read; the progress mirror reads, including
the read-modify-write inside saveProgressLocally, throw the parse error. -/
theorem malformed_storage_behaviour (s : Storage) (pid : String) (p : Progress)
    (now : String)
    (hq : s.syncQueue = some .malformed) (hp : s.progress = some .malformed) :
    getSyncQueue s = [] ∧
    getAllLocalProgress s = .error () ∧
    getLocalProgress s pid = .error () ∧
    saveProgressLocally s pid p now = .error () := by
  refine ⟨?_, ?_, ?_, ?_⟩ <;>
    simp [getSyncQueue, getAllLocalProgress, getLocalProgress, saveProgressLocally,
      readProgressStore, hq, hp, Except.map]

/-- Claim C7: offline, or with no identity resolving, syncPendingChanges
performs no remote call and returns the storage unchanged (queue, mirror
and last-sync stamp untouched). -/
theorem sync_noop_offline_or_unauthenticated (env : Env) (s : Storage) (now : String)
    (h : env.isOnline = false ∨ resolveUser env = none) :
    syncPendingChanges env s now = .ok (s, []) := by
  rcases h with h | h
  · simp [syncPendingChanges, h]
  · cases ho : env.isOnline <;> simp [syncPendingChanges, h, ho]

/-- Claim C8: forceSyncNow returns false immediately when offline, leaving
the storage untouched and making no remote call; when online it runs
syncPendingChanges to completion and pairs its outcome with true. -/
theorem forceSyncNow_dispatch (env : Env) (s : Storage) (now : String) :
    forceSyncNow env s now =
      (if env.isOnline then (syncPendingChanges env s now).map (fun r => (r, true))
       else .ok ((s, []), false)) := by
  cases h : env.isOnline <;> simp [forceSyncNow, h]

/-- Claim C10: whenever the environment is online, forceSyncNow returns
true even when no identity resolves or the queue is empty — cases in which
it performs no remote call and leaves the storage unchanged, so true does
not imply that anything was pushed. -/
theorem forceSyncNow_true_without_push (env : Env) (s : Storage) (now : String)
    (h1 : env.isOnline = true)
    (h2 : resolveUser env = none ∨ getSyncQueue s = []) :
    forceSyncNow env s now = .ok ((s, []), true) := by
  have hsync : syncPendingChanges env s now = .ok (s, []) := by
    rcases h2 with h | h
    · simp [syncPendingChanges, h1, h]
    · rcases hr : resolveUser env with _ | u <;> simp [syncPendingChanges, h1, h, hr]
  simp [forceSyncNow, h1, hsync, Except.map]

lemma processSyncItem_noHandler (env : Env) (user : User) (item : QueueItem)
    (hrec : recognizedAction item.action = true)
    (habs : handlerPresent env item.action = false) :
    processSyncItem env user item = (true, []) := by
  simp only [recognizedAction, Bool.or_eq_true, decide_eq_true_eq] at hrec
  rcases hrec with ((((h | h) | h) | h) | h) <;>
    (simp [handlerPresent, h] at habs; simp [processSyncItem, h, habs])

/-- Claim C9: when the remote function for an item's recognized action is
absent, a reconciliation pass treats the item as successfully processed
and dequeues it, making no remote call at all. -/
theorem missing_handler_item_dequeued (env : Env) (user : User) (item : QueueItem)
    (ls : Option String) (now : String)
    (h1 : env.isOnline = true) (h2 : resolveUser env = some user)
    (h3 : recognizedAction item.action = true)
    (h4 : handlerPresent env item.action = false) :
    syncPendingChanges env ⟨some (.wf [item]), some (.wf []), ls⟩ now =
      .ok (⟨some (.wf []), some (.wf []), some now⟩, []) := by
  have hpr := processSyncItem_noHandler env user item h3 h4
  simp [syncPendingChanges, h1, h2, getSyncQueue, syncQueueItems, hpr,
    removeFromSyncQueue, saveSyncQueue, syncLocalProgressToCloud,
    getAllLocalProgress, readProgressStore, Except.map, bne_self_eq_false]

theorem write_facade_witness :
    sEmpty.progress ≠ some .malformed ∧
    ((∃ s1 cs1,
        saveProgressOffline envOffline sEmpty "poem-1" sampleProgress "id1" "t1" = .ok (s1, cs1) ∧
        objGet "poem-1" (mirrorOf s1) = some ⟨sampleProgress, "t1"⟩ ∧
        s1.lastSync = sEmpty.lastSync ∧
        (if progressRemoteSucceeds envOffline "poem-1" sampleProgress then
           getSyncQueue s1 = getSyncQueue sEmpty
         else getSyncQueue s1 = getSyncQueue sEmpty ++
           [⟨"id1", "save_progress", .progressPayload "poem-1" sampleProgress, "t1", 0⟩])) ∧
     (∃ s2 cs2,
        saveUserPoemOffline envOffline sEmpty samplePoem "id1" "t1" = .ok (s2, cs2) ∧
        objGet samplePoem.id (mirrorOf s2) = some ⟨poemProgress samplePoem, "t1"⟩ ∧
        s2.lastSync = sEmpty.lastSync ∧
        (if poemRemoteSucceeds envOffline samplePoem then
           getSyncQueue s2 = getSyncQueue sEmpty
         else getSyncQueue s2 = getSyncQueue sEmpty ++
           [⟨"id1", "save_poem", .poemPayload samplePoem, "t1", 0⟩]))) :=
  ⟨by decide,
   write_facade_mirror_first_then_queue envOffline sEmpty "poem-1" sampleProgress samplePoem
     "id1" "t1" (by decide)⟩

theorem unknown_action_items_dequeued_witness :
    (envAllFail.isOnline = true ∧ resolveUser envAllFail = some ⟨"user-1"⟩ ∧
      getSyncQueue bogusStart ≠ [] ∧
      (∀ it ∈ getSyncQueue bogusStart, recognizedAction it.action = false) ∧
      bogusStart.progress ≠ some .malformed) ∧
    (∃ s' cs, syncPendingChanges envAllFail bogusStart "t1" = .ok (s', cs) ∧
      getSyncQueue s' = [] ∧ s'.progress = bogusStart.progress) :=
  ⟨⟨rfl, rfl, by decide, by decide, by decide⟩,
   unknown_action_items_dequeued_first_pass envAllFail ⟨"user-1"⟩ bogusStart "t1"
     rfl rfl (by decide) (by decide) (by decide)⟩

theorem empty_queue_returns_unchanged_witness :
    (envAllOk.isOnline = true ∧ resolveUser envAllOk = some ⟨"user-1"⟩ ∧
      getSyncQueue emptyQStart = []) ∧
    syncPendingChanges envAllOk emptyQStart "t1" = .ok (emptyQStart, []) :=
  ⟨⟨rfl, rfl, rfl⟩,
   empty_queue_returns_unchanged envAllOk ⟨"user-1"⟩ emptyQStart "t1" rfl rfl rfl⟩

theorem malformed_storage_behaviour_witness :
    (sMal.syncQueue = some .malformed ∧ sMal.progress = some .malformed) ∧
    (getSyncQueue sMal = [] ∧
     getAllLocalProgress sMal = .error () ∧
     getLocalProgress sMal "poem-1" = .error () ∧
     saveProgressLocally sMal "poem-1" sampleProgress "t1" = .error ()) :=
  ⟨⟨rfl, rfl⟩, malformed_storage_behaviour sMal "poem-1" sampleProgress "t1" rfl rfl⟩

theorem offline_writes_witness :
    (envOffline.isOnline = false ∧ sEmpty.progress ≠ some .malformed) ∧
    (∃ s', runWrites envOffline sEmpty sampleWrites = .ok s' ∧
      (∀ pid, objGet pid (mirrorOf s') =
        (match lastWriteFor pid sampleWrites with
         | some c => some ⟨c.progress, c.now⟩
         | none => objGet pid (mirrorOf sEmpty))) ∧
      getSyncQueue s' = getSyncQueue sEmpty ++ sampleWrites.map queueEntryOf) :=
  ⟨⟨rfl, by decide⟩,
   offline_writes_lastwins_one_entry_per_call envOffline rfl sampleWrites sEmpty (by decide)⟩

theorem sync_noop_witness :
    (envOffline.isOnline = false ∨ resolveUser envOffline = none) ∧
    syncPendingChanges envOffline stuckStart "t1" = .ok (stuckStart, []) :=
  ⟨Or.inl rfl, sync_noop_offline_or_unauthenticated envOffline stuckStart "t1" (Or.inl rfl)⟩

theorem missing_handler_witness :
    (envNoPoemHandler.isOnline = true ∧ resolveUser envNoPoemHandler = some ⟨"user-1"⟩ ∧
      recognizedAction poemItem.action = true ∧
      handlerPresent envNoPoemHandler poemItem.action = false) ∧
    syncPendingChanges envNoPoemHandler ⟨some (.wf [poemItem]), some (.wf []), none⟩ "t1" =
      .ok (⟨some (.wf []), some (.wf []), some "t1"⟩, []) :=
  ⟨⟨rfl, rfl, by decide, by decide⟩,
   missing_handler_item_dequeued envNoPoemHandler ⟨"user-1"⟩ poemItem none "t1"
     rfl rfl (by decide) (by decide)⟩

theorem forceSyncNow_true_without_push_witness :
    (envNoUser.isOnline = true ∧
      (resolveUser envNoUser = none ∨ getSyncQueue stuckStart = [])) ∧
    forceSyncNow envNoUser stuckStart "t1" = .ok ((stuckStart, []), true) :=
  ⟨⟨rfl, Or.inl rfl⟩,
   forceSyncNow_true_without_push envNoUser stuckStart "t1" rfl (Or.inl rfl)⟩


end Rhapsode
